import Mathlib

/-!
Shallow embedding of the `unlib-js/unreliable` library core:
the `Unreliable` resource state machine (src/Unreliable.ts) and the
retry `Daemon` (src/Daemon.ts), together with theorems settling the
frozen claims about the natural-language specification.

Modelling conventions:
* Resource states are strings, taken from the `meta` configuration table,
  exactly as in the source.
* The broadcast/wait primitive (`EventBarrier`) delivers `notify` to
  subscribed callbacks synchronously, Node-`EventEmitter` style (the
  Daemon's `once(it, states.stopped, …)` listener is a plain
  `EventEmitter` subscription on the resource that only `notify` can
  fire, so `notify` must emit synchronously).  Every broadcast is
  recorded in an effects log; each `notifyState` record also stores the
  value the `state` getter returns at delivery time, i.e. the value an
  observer callback reads synchronously inside the broadcast.
* `abort(event, err)` calls on the barrier are recorded in the same log,
  so the relative order of waiter aborts and broadcasts is visible.
* Asynchrony is modelled by splitting each `async` method at its `await`
  points; the pieces between awaits are atomic synchronous steps.
-/

/-- Errors that can cross the `Unreliable` API: Node `assert` failures,
arbitrary errors thrown by the creation hook (indexed by a code), and
`UnreliableDeathError` carrying the dead handle and raw event args. -/
inductive UErr where
  | assertionError (msg : String)
  | createError (code : Nat)
  | deathError (handle : Option Nat) (reason : List Nat)
deriving DecidableEq, Repr

/-- Payload attached to a state-transition broadcast, on top of the
`{ oldState }` field every `StateChange` carries. -/
inductive UPayload where
  | plain
  | failure (err : UErr)
  | stopReason (reason : List Nat)
deriving DecidableEq, Repr

/-- One observable effect on the event barrier of an `Unreliable`
instance.  `notifyState` records the broadcast state name, the
`oldState` field of the payload, the value of the `state` getter at the
moment subscriber callbacks run (`stateAtDelivery`), and the extra
payload.  `abortWaiters` records an `abort(event, err)` call. -/
inductive UEffect where
  | notifyState (newState oldState stateAtDelivery : String) (payload : UPayload)
  | abortWaiters (event : String) (err : UErr)
deriving DecidableEq, Repr

/-- The six canonical state names of `UnreliableMeta.states`. -/
structure UnreliableStates where
  init : String
  starting : String
  startFailed : String
  running : String
  stopping : String
  stopped : String
deriving DecidableEq, Repr

/-- `UnreliableMeta.stateConf`. -/
structure UnreliableStateConf where
  startable : List String
  stoppable : List String
  abortOnStartFailure : List String
  abortOnDeath : List String
deriving DecidableEq, Repr

/-- The static configuration table a concrete resource type supplies
(`UnreliableMeta`).  `eventHandlers` keeps only the event names, since
the bound method bodies are subclass code. -/
structure UnreliableMeta where
  states : UnreliableStates
  stateConf : UnreliableStateConf
  deathEvents : List String
  eventHandlers : List String
deriving DecidableEq, Repr

/-- Mutable fields of an `Unreliable` instance plus the effects log.
`_disposables` keeps the event names of active subscriptions on the
live handle. -/
structure UnState where
  _state : String
  _uObj : Option Nat
  _disposables : List String
  log : List UEffect
deriving DecidableEq, Repr

/-- `Unreliable._setState`: broadcast the transition, then assign the
state field.  Subscriber callbacks run inside `notify`, before the
assignment, so `stateAtDelivery` is the pre-transition value of
`this._state`. -/
def Unreliable._setState (u : UnState) (newState : String) (payload : UPayload) : UnState :=
  let u' := { u with log := u.log ++ [UEffect.notifyState newState u._state u._state payload] }
  { u' with _state := newState }

/-- The `startable` getter: membership of the current state in
`meta.stateConf.startable`. -/
def Unreliable.startable (m : UnreliableMeta) (u : UnState) : Bool :=
  m.stateConf.startable.contains u._state

/-- The `stoppable` getter. -/
def Unreliable.stoppable (m : UnreliableMeta) (u : UnState) : Bool :=
  m.stateConf.stoppable.contains u._state

/-- `EventBarrier.abort(event, err)` as observed by this instance:
recorded in the effects log. -/
def Unreliable.abortU (event : String) (err : UErr) (u : UnState) : UnState :=
  { u with log := u.log ++ [UEffect.abortWaiters event err] }

/-- `Unreliable._start`, with the outcome of the awaited
`_createAndCheck()` creation hook supplied as `createResult`.  The two
`assert`s throw `AssertionError`s; on success the handle is stored, the
`running` transition broadcast, and subscriptions for `error`, every
death event, and every configured auxiliary event are pushed onto
`_disposables`. -/
def Unreliable._start (m : UnreliableMeta) (createResult : Except UErr Nat)
    (u : UnState) : Except UErr Nat × UnState :=
  if ¬ Unreliable.startable m u then (.error (.assertionError "Not startable"), u)
  else if u._uObj ≠ none then (.error (.assertionError "Invalid state"), u)
  else
    let u1 := Unreliable._setState u m.states.starting .plain
    match createResult with
    | .error e => (.error e, u1)
    | .ok h =>
      let u2 := { u1 with _uObj := some h }
      let u3 := Unreliable._setState u2 m.states.running .plain
      let u4 := { u3 with _disposables :=
        u3._disposables ++ ["error"] ++ m.deathEvents ++ m.eventHandlers }
      (.ok h, u4)

/-- `Unreliable.start`: run `_start`; on any error, abort the waiters of
every `abortOnStartFailure` event with the causal error, transition to
`start-failed` broadcasting the failure payload, then re-raise. -/
def Unreliable.start (m : UnreliableMeta) (createResult : Except UErr Nat)
    (u : UnState) : Except UErr Unit × UnState :=
  match Unreliable._start m createResult u with
  | (.ok _, u') => (.ok (), u')
  | (.error err, u') =>
    let u2 := m.stateConf.abortOnStartFailure.foldl
      (fun acc ev => Unreliable.abortU ev err acc) u'
    let u3 := Unreliable._setState u2 m.states.startFailed (.failure err)
    (.error err, u3)

/-- `Unreliable._onDeath(...reason)`: build the death error from the
still-live handle and the raw event arguments, broadcast the `stopped`
transition with the stop reason, clear the handle, dispose all
subscriptions, then abort the waiters of every `abortOnDeath` event
with the death error. -/
def Unreliable._onDeath (m : UnreliableMeta) (reason : List Nat) (u : UnState) : UnState :=
  let err : UErr := .deathError u._uObj reason
  let u1 := Unreliable._setState u m.states.stopped (.stopReason reason)
  let u2 := { u1 with _uObj := none }
  let u3 := { u2 with _disposables := [] }
  m.stateConf.abortOnDeath.foldl (fun acc ev => Unreliable.abortU ev err acc) u3

/-- `Unreliable.waitForState(dstState, …)`: `none` models the immediate
`return` (resolving `undefined`, registering no waiter); `some dst`
models the delegation to `super.waitFor(dstState, …)`, which registers
a waiter that a later transition broadcast resolves with its
`StateChange` payload. -/
def Unreliable.waitForState (dstState : String) (u : UnState) : Option String :=
  if u._state = dstState then none else some dstState

/-- Folding `abort` over a list of event names appends exactly the
corresponding `abortWaiters` records and touches nothing else. -/
theorem abortU_foldl (l : List String) (err : UErr) (u : UnState) :
    l.foldl (fun acc ev => Unreliable.abortU ev err acc) u
      = { u with log := u.log ++ l.map (fun ev => UEffect.abortWaiters ev err) } := by
  induction l generalizing u with
  | nil => simp
  | cons e t ih =>
    rw [List.foldl_cons, ih]
    simp [Unreliable.abortU]

/-- The `meta` table of the repository's own `FakeProcess` test double
(src/test.ts), used for concrete witnesses. -/
def fakeMeta : UnreliableMeta :=
  { states :=
      { init := "init", starting := "starting", startFailed := "start-failed"
        running := "running", stopping := "stopping", stopped := "stopped" }
    stateConf :=
      { startable := ["init", "start-failed", "stopped"]
        stoppable := ["running", "stopping"]
        abortOnDeath := ["starting", "running"]
        abortOnStartFailure := ["running", "stopped"] }
    deathEvents := ["exit"]
    eventHandlers := [] }

/-- A fresh instance in state `init`. -/
def initUnState : UnState := { _state := "init", _uObj := none, _disposables := [], log := [] }

/-- A successfully started instance: state `running`, live handle `42`,
subscriptions for `error` and the `exit` death event. -/
def runningUnState : UnState :=
  { _state := "running", _uObj := some 42, _disposables := ["error", "exit"], log := [] }

/-- C3 counterexample: on the `init → starting` transition of a fresh
instance, the broadcast delivers with `stateAtDelivery = "init"` — an
observer callback that synchronously reads the `state` getter inside
the broadcast reads the old value `"init"`, not the new value
`"starting"`, because `_setState` notifies before assigning. -/
theorem unreliable_observer_stale_state_cex :
    (Unreliable._setState initUnState "starting" .plain).log
      = [UEffect.notifyState "starting" "init" "init" .plain]
    ∧ (Unreliable._setState initUnState "starting" .plain)._state = "starting"
    ∧ ("init" : String) ≠ "starting" :=
  ⟨rfl, rfl, by decide⟩

/-- C7: when a configured death event fires on the live handle, the
instance builds a death error carrying the dead handle and the raw
event arguments, broadcasts the `stopped` transition with the stop
reason, clears the handle, disposes every subscription, and then aborts
the waiters of every `abortOnDeath` event, in list order, with that
death error. -/
theorem unreliable_onDeath_effects
    (m : UnreliableMeta) (u : UnState) (h : Nat) (reason : List Nat)
    (hobj : u._uObj = some h) :
    Unreliable._onDeath m reason u
      = { u with
          _state := m.states.stopped,
          _uObj := none,
          _disposables := [],
          log := u.log
            ++ [UEffect.notifyState m.states.stopped u._state u._state (.stopReason reason)]
            ++ m.stateConf.abortOnDeath.map (fun ev =>
                 UEffect.abortWaiters ev (.deathError (some h) reason)) } := by
  simp [Unreliable._onDeath, Unreliable._setState, abortU_foldl, hobj]

/-- Witness for the C7 theorem at the concrete running instance with
handle `42` dying with raw arguments `[7]` under the repository's test
meta. -/
theorem unreliable_onDeath_effects_witness :
    runningUnState._uObj = some 42
    ∧ Unreliable._onDeath fakeMeta [7] runningUnState
        = { _state := "stopped", _uObj := none, _disposables := [],
            log := [UEffect.notifyState "stopped" "running" "running" (.stopReason [7]),
                    UEffect.abortWaiters "starting" (.deathError (some 42) [7]),
                    UEffect.abortWaiters "running" (.deathError (some 42) [7])] } := by
  refine ⟨rfl, ?_⟩
  rw [unreliable_onDeath_effects fakeMeta runningUnState 42 [7] rfl]
  rfl

/-- C8: when the creation hook fails with `e`, `start()` first aborts
the waiters of every `abortOnStartFailure` event with `e`, then
broadcasts the `start-failed` transition carrying `e` and the previous
state (`starting`), and returns the same error `e` to its caller. -/
theorem unreliable_start_creation_failure_effects
    (m : UnreliableMeta) (u : UnState) (e : UErr)
    (hs : Unreliable.startable m u = true) (hobj : u._uObj = none) :
    Unreliable.start m (.error e) u
      = (.error e,
         { u with
             _state := m.states.startFailed,
             log := u.log
               ++ [UEffect.notifyState m.states.starting u._state u._state .plain]
               ++ m.stateConf.abortOnStartFailure.map (fun ev => UEffect.abortWaiters ev e)
               ++ [UEffect.notifyState m.states.startFailed m.states.starting
                     m.states.starting (.failure e)] }) := by
  simp [Unreliable.start, Unreliable._start, Unreliable._setState, abortU_foldl, hs, hobj]

/-- Witness for the C8 theorem: a fresh instance whose creation hook
throws error code `3` under the repository's test meta. -/
theorem unreliable_start_creation_failure_witness :
    Unreliable.startable fakeMeta initUnState = true
    ∧ initUnState._uObj = none
    ∧ Unreliable.start fakeMeta (.error (.createError 3)) initUnState
        = (.error (.createError 3),
           { _state := "start-failed", _uObj := none, _disposables := [],
             log := [UEffect.notifyState "starting" "init" "init" .plain,
                     UEffect.abortWaiters "running" (.createError 3),
                     UEffect.abortWaiters "stopped" (.createError 3),
                     UEffect.notifyState "start-failed" "starting" "starting"
                       (.failure (.createError 3))] }) := by
  refine ⟨by decide, rfl, ?_⟩
  rw [unreliable_start_creation_failure_effects fakeMeta initUnState (.createError 3)
    (by decide) rfl]
  rfl

/-- C9: calling `start()` when the precondition fails (state not
startable, or a handle already exists) raises the assertion error to
the caller, but only after aborting all `abortOnStartFailure` waiters
with that assertion error and moving the state to `start-failed` — the
precondition check is not atomic with respect to the state. -/
theorem unreliable_start_precondition_fault_not_atomic
    (m : UnreliableMeta) (u : UnState) (cr : Except UErr Nat)
    (hpre : ¬ (Unreliable.startable m u = true ∧ u._uObj = none)) :
    Unreliable.start m cr u
      = (.error (.assertionError
           (if Unreliable.startable m u then "Invalid state" else "Not startable")),
         { u with
             _state := m.states.startFailed,
             log := u.log
               ++ m.stateConf.abortOnStartFailure.map (fun ev =>
                    UEffect.abortWaiters ev (.assertionError
                      (if Unreliable.startable m u then "Invalid state" else "Not startable")))
               ++ [UEffect.notifyState m.states.startFailed u._state u._state
                    (.failure (.assertionError
                      (if Unreliable.startable m u then "Invalid state"
                       else "Not startable")))] }) := by
  cases hstart : Unreliable.startable m u with
  | false =>
    simp [Unreliable.start, Unreliable._start, Unreliable._setState, abortU_foldl, hstart]
  | true =>
    have hobj : u._uObj ≠ none := fun hn => hpre ⟨hstart, hn⟩
    simp [Unreliable.start, Unreliable._start, Unreliable._setState, abortU_foldl,
      hstart, hobj]

/-- Witness for the C9 theorem: `start()` on an instance already in
state `running` (not startable under the test meta); the handle stays
set, the state ends at `start-failed`, and the waiters were aborted
with the assertion error. -/
theorem unreliable_start_precondition_witness :
    ¬ (Unreliable.startable fakeMeta runningUnState = true ∧ runningUnState._uObj = none)
    ∧ Unreliable.start fakeMeta (.ok 0) runningUnState
        = (.error (.assertionError "Not startable"),
           { _state := "start-failed", _uObj := some 42, _disposables := ["error", "exit"],
             log := [UEffect.abortWaiters "running" (.assertionError "Not startable"),
                     UEffect.abortWaiters "stopped" (.assertionError "Not startable"),
                     UEffect.notifyState "start-failed" "running" "running"
                       (.failure (.assertionError "Not startable"))] }) := by
  refine ⟨by decide, ?_⟩
  rw [unreliable_start_precondition_fault_not_atomic fakeMeta runningUnState (.ok 0)
    (by decide)]
  rfl

/-- C10: `waitForState(s, …)` returns immediately with `undefined` and
registers no waiter when the current state already equals `s`; a waiter
(whose later resolution carries the `StateChange` payload of an actual
transition) is registered only when the current state differs. -/
theorem unreliable_waitForState_immediate (u : UnState) (dst : String) :
    (u._state = dst → Unreliable.waitForState dst u = none)
    ∧ (u._state ≠ dst → Unreliable.waitForState dst u = some dst) := by
  constructor <;> intro h <;> simp [Unreliable.waitForState, h]

/-- Witness for the C10 theorem on a fresh instance: waiting for
`init` returns immediately with no waiter; waiting for `running`
registers a waiter. -/
theorem unreliable_waitForState_witness :
    (initUnState._state = "init" ∧ Unreliable.waitForState "init" initUnState = none)
    ∧ (initUnState._state ≠ "running"
       ∧ Unreliable.waitForState "running" initUnState = some "running") :=
  ⟨⟨rfl, (unreliable_waitForState_immediate initUnState "init").1 rfl⟩,
   ⟨by decide, (unreliable_waitForState_immediate initUnState "running").2 (by decide)⟩⟩

/-! ## Daemon (src/Daemon.ts)

The Daemon's asynchronous execution is modelled as atomic synchronous
steps over an explicit state.  `liveTimers` tracks the timers actually
armed via `setTimeout` and not yet fired or cleared (each entry is the
timer id and the attempt number its callback will pass to `_start`);
`_retryTimer` is the handle stored in the field of the same name.
`inFlight` lists the attempt numbers whose `await it.start()` has not
settled yet (the pending continuations of `_start`).  `stoppedSubs`
counts the `once(it, states.stopped, …)` subscriptions held in the
Daemon's `_disposables`.  `trace` records every `notify` broadcast in
order and `aborts` the `abort(RUNNING, …)` calls. -/

/-- `DaemonStatus` (src/Daemon.h.ts). -/
inductive DaemonStatus where
  | INIT | STARTING | RUNNING | RETRY_SCHEDULED | DEAD
deriving DecidableEq, Repr

/-- The Daemon's broadcasts (`DaemonEvents` with their payloads):
`startFailed` carries the `StartFailureError`'s attempt number and
`retryIn` (the retry delay, or `-1` for the terminal failure). -/
inductive DEvent where
  | starting (nthAttempt : Nat)
  | startFailed (nthAttempt : Nat) (retryIn : Int)
  | running
  | retryScheduled (nthAttempt : Nat) (retryDelay : Nat)
deriving DecidableEq, Repr

/-- Data of a `StartFailureError` used to abort the `RUNNING` waiters. -/
structure StartFailureData where
  nthAttempt : Nat
  retryIn : Int
deriving DecidableEq, Repr

/-- `DaemonOptions`. -/
structure DaemonOptions where
  maxAttempt : Nat
  retryDelay : Nat
deriving DecidableEq, Repr

/-- The mutable state of one `Daemon` instance plus its observable
broadcast trace.  `delivered` runs in lockstep with `trace`: for each
broadcast it records the value the `state` getter returns while the
subscriber callbacks run — i.e. what an observer reads synchronously
inside that broadcast (the source notifies before assigning
`this._state`, so this is the pre-transition status). -/
structure DaemonState where
  _state : DaemonStatus
  _retryTimer : Option Nat
  liveTimers : List (Nat × Nat)
  nextTimerId : Nat
  inFlight : List Nat
  stoppedSubs : Nat
  trace : List DEvent
  aborts : List StartFailureData
  delivered : List DaemonStatus
deriving DecidableEq, Repr

/-- `this.notify(event, …)`: subscriber callbacks run inside the call,
while `this._state` still holds its current value, which is therefore
recorded as the delivered status. -/
def Daemon.notifyD (e : DEvent) (s : DaemonState) : DaemonState :=
  { s with trace := s.trace ++ [e], delivered := s.delivered ++ [s._state] }

/-- `clearTimeout(id)`: the timer with that id is no longer live. -/
def Daemon.clearTimeoutD (id : Nat) (s : DaemonState) : DaemonState :=
  { s with liveTimers := s.liveTimers.filter (fun t => t.1 != id) }

/-- The `if (this._retryTimer) { clearTimeout(this._retryTimer);
this._retryTimer = null }` block. -/
def Daemon.clearRetryTimer (s : DaemonState) : DaemonState :=
  match s._retryTimer with
  | none => s
  | some id => { Daemon.clearTimeoutD id s with _retryTimer := none }

/-- `this._retryTimer = setTimeout(() => { this._retryTimer = null;
this._start(nthAttempt) }, retryDelay)`. -/
def Daemon.armRetryTimer (nthAttempt : Nat) (s : DaemonState) : DaemonState :=
  { s with
      liveTimers := s.liveTimers ++ [(s.nextTimerId, nthAttempt)],
      _retryTimer := some s.nextTimerId,
      nextTimerId := s.nextTimerId + 1 }

/-- `Daemon._cleanUp`: dispose all disposables, then clear a pending
retry timer. -/
def Daemon._cleanUp (s : DaemonState) : DaemonState :=
  Daemon.clearRetryTimer { s with stoppedSubs := 0 }

/-- `Daemon._scheduleRetry(nthAttempt)`: defensively `clearTimeout` a
dangling timer (without nulling the field, which is immediately
reassigned), broadcast `retry-scheduled` with `{nthAttempt,
retryDelay}`, set the status, and arm the timer. -/
def Daemon._scheduleRetry (o : DaemonOptions) (nthAttempt : Nat) (s : DaemonState) :
    DaemonState :=
  let s1 := match s._retryTimer with
    | some id => Daemon.clearTimeoutD id s
    | none => s
  let s2 := Daemon.notifyD (.retryScheduled nthAttempt o.retryDelay) s1
  let s3 := { s2 with _state := DaemonStatus.RETRY_SCHEDULED }
  Daemon.armRetryTimer nthAttempt s3

/-- The synchronous prefix of `Daemon._start(nthAttempt)` up to
`await it.start()`: the dead guard, the retry-timer clear, `_cleanUp`,
the `starting` broadcast and status, and the suspension itself (the
attempt joins `inFlight`). -/
def Daemon._startEntry (n : Nat) (s : DaemonState) : DaemonState :=
  if s._state = DaemonStatus.DEAD then s
  else
    let s1 := Daemon.clearRetryTimer s
    let s2 := Daemon._cleanUp s1
    let s3 := Daemon.notifyD (.starting n) s2
    let s4 := { s3 with _state := DaemonStatus.STARTING }
    { s4 with inFlight := s4.inFlight ++ [n] }

/-- The continuation of `Daemon._start` when the `i`-th pending
`await it.start()` settles successfully: `running` broadcast, status
`RUNNING`, and the `once(it, states.stopped, …)` subscription is
pushed. -/
def Daemon.resolveOkD (i : Nat) (s : DaemonState) : DaemonState :=
  match s.inFlight[i]? with
  | none => s
  | some _ =>
    let s0 := { s with inFlight := s.inFlight.eraseIdx i }
    let s1 := Daemon.notifyD .running s0
    let s2 := { s1 with _state := DaemonStatus.RUNNING }
    { s2 with stoppedSubs := s2.stoppedSubs + 1 }

/-- The continuation of `Daemon._start` when the `i`-th pending
`await it.start()` rejects — the `catch` block (the best-effort
`it.stop()` only touches the resource): if the attempt number has
reached `maxAttempt`, broadcast the terminal failure (`retryIn = -1`),
set status `DEAD` and abort the `RUNNING` waiters; otherwise, unless
the daemon died meanwhile, broadcast the retryable failure and
schedule the next attempt. -/
def Daemon.resolveErrD (o : DaemonOptions) (i : Nat) (s : DaemonState) : DaemonState :=
  match s.inFlight[i]? with
  | none => s
  | some n =>
    let s0 := { s with inFlight := s.inFlight.eraseIdx i }
    if o.maxAttempt ≤ n then
      let s1 := Daemon.notifyD (.startFailed n (-1)) s0
      let s2 := { s1 with _state := DaemonStatus.DEAD }
      { s2 with aborts := s2.aborts ++ [⟨n, -1⟩] }
    else if s0._state ≠ DaemonStatus.DEAD then
      let s1 := Daemon.notifyD (.startFailed n (o.retryDelay : Int)) s0
      Daemon._scheduleRetry o (n + 1) s1
    else s0

/-- A pending retry timer fires: its callback nulls `_retryTimer` and
re-enters `_start` at the stored attempt number. -/
def Daemon.timerFireD (s : DaemonState) : DaemonState :=
  match s.liveTimers with
  | [] => s
  | (id, n) :: _ =>
    let s1 := Daemon.clearTimeoutD id s
    let s2 := { s1 with _retryTimer := none }
    Daemon._startEntry n s2

/-- `Daemon.start()`: reset the status to `INIT`, then (synchronously,
up to the first await) run `_start()` at attempt 1. -/
def Daemon.startD (s : DaemonState) : DaemonState :=
  Daemon._startEntry 1 { s with _state := DaemonStatus.INIT }

/-- `Daemon.stop()`: set status `DEAD`, `_cleanUp`, clear a pending
retry timer again, best-effort `it.stop()` (resource-side only). -/
def Daemon.stopD (s : DaemonState) : DaemonState :=
  Daemon.clearRetryTimer (Daemon._cleanUp { s with _state := DaemonStatus.DEAD })

/-- The body of the `once(it, states.stopped, …)` callback: `_cleanUp`,
then — unless the daemon is dead — `_scheduleRetry()` at the default
attempt number 1. -/
def Daemon.onStoppedCallback (o : DaemonOptions) (s : DaemonState) : DaemonState :=
  let s1 := Daemon._cleanUp s
  if s1._state ≠ DaemonStatus.DEAD then Daemon._scheduleRetry o 1 s1 else s1

/-- Run the stopped-callback `k` times (the resource's `stopped`
broadcast invokes every registered subscription; the emitter iterates
over a snapshot of the listener list). -/
def Daemon.onStoppedIter (o : DaemonOptions) : Nat → DaemonState → DaemonState
  | 0, s => s
  | k + 1, s => Daemon.onStoppedIter o k (Daemon.onStoppedCallback o s)

/-- The resource broadcasts its `stopped` transition: every currently
registered once-subscription of the Daemon fires. -/
def Daemon.resourceStoppedD (o : DaemonOptions) (s : DaemonState) : DaemonState :=
  Daemon.onStoppedIter o s.stoppedSubs s

/-- The atomic synchronous steps that can act on one Daemon instance:
an external `start()` call, settlement of a pending `it.start()`
(success or failure), a retry timer firing, the resource emitting its
`stopped` transition, and an external `stop()` call. -/
inductive DAct where
  | extStart
  | resolveOk (i : Nat)
  | resolveErr (i : Nat)
  | timerFire
  | resourceStopped
  | extStop
deriving DecidableEq, Repr

/-- Apply one atomic step. -/
def Daemon.applyAct (o : DaemonOptions) : DAct → DaemonState → DaemonState
  | .extStart, s => Daemon.startD s
  | .resolveOk i, s => Daemon.resolveOkD i s
  | .resolveErr i, s => Daemon.resolveErrD o i s
  | .timerFire, s => Daemon.timerFireD s
  | .resourceStopped, s => Daemon.resourceStoppedD o s
  | .extStop, s => Daemon.stopD s

/-- Run a sequence of atomic steps. -/
def Daemon.runActs (o : DaemonOptions) (acts : List DAct) (s : DaemonState) : DaemonState :=
  acts.foldl (fun st a => Daemon.applyAct o a st) s

/-- A freshly constructed Daemon. -/
def initDaemon : DaemonState :=
  { _state := DaemonStatus.INIT, _retryTimer := none, liveTimers := [], nextTimerId := 0,
    inFlight := [], stoppedSubs := 0, trace := [], aborts := [], delivered := [] }

theorem Daemon.runActs_cons (o : DaemonOptions) (a : DAct) (l : List DAct)
    (s : DaemonState) :
    Daemon.runActs o (a :: l) s = Daemon.runActs o l (Daemon.applyAct o a s) := rfl

theorem Daemon.runActs_append (o : DaemonOptions) (l₁ l₂ : List DAct) (s : DaemonState) :
    Daemon.runActs o (l₁ ++ l₂) s = Daemon.runActs o l₂ (Daemon.runActs o l₁ s) := by
  simp [Daemon.runActs, List.foldl_append]

/-- C2 is violated by the code: take `maxAttempt = 3`,
`retryDelay = 2000`; call `start()`, then `stop()` while the first
attempt's `it.start()` is still in flight (the daemon is `dead` at that
point), and let the creation then succeed.  The success continuation
has no dead-guard, so the daemon broadcasts `running` and its status
leaves `dead`; when the resource later emits its stopped transition,
a retry is scheduled (`retry-scheduled` broadcast, status
`retry-scheduled`) with no external `start()` call — contradicting both
the claim and the code's own `DaemonStatus.DEAD` documentation. -/
theorem daemon_dead_not_terminal_on_inflight_success :
    (Daemon.runActs ⟨3, 2000⟩ [DAct.extStart, DAct.extStop] initDaemon)._state
      = DaemonStatus.DEAD
    ∧ (Daemon.runActs ⟨3, 2000⟩ [DAct.extStart, DAct.extStop, DAct.resolveOk 0]
        initDaemon)._state = DaemonStatus.RUNNING
    ∧ (Daemon.runActs ⟨3, 2000⟩
        [DAct.extStart, DAct.extStop, DAct.resolveOk 0, DAct.resourceStopped]
        initDaemon)._state = DaemonStatus.RETRY_SCHEDULED
    ∧ (Daemon.runActs ⟨3, 2000⟩
        [DAct.extStart, DAct.extStop, DAct.resolveOk 0, DAct.resourceStopped]
        initDaemon).trace
      = [DEvent.starting 1, DEvent.running, DEvent.retryScheduled 1 2000] := by
  refine ⟨rfl, rfl, rfl, rfl⟩

/-- C3 amended: for every transition of the Daemon status or the
Unreliable state, the broadcast is issued first and the status/state
field is assigned immediately afterwards in the same synchronous step:
the getter reflects the transition before the next event-loop turn and
an observer reading it after the step sees the new value — but an
observer callback invoked synchronously inside the broadcast reads the
old (pre-transition) value.  The conjuncts cover `Unreliable._setState`
(every resource transition) and every broadcast-paired Daemon status
assignment: `starting` (Daemon.ts lines 115-116), `running` (118-119),
the terminal `start-failed`/`dead` (130-131), and `retry-scheduled`
(153-154); each Daemon broadcast's delivered status is the
pre-transition one while the status field ends at the new value. -/
theorem transition_broadcast_then_assign
    (u : UnState) (ns : String) (p : UPayload)
    (o : DaemonOptions) (i n : Nat) (s : DaemonState)
    (hnd : s._state ≠ DaemonStatus.DEAD)
    (hif : s.inFlight[i]? = some n)
    (hge : o.maxAttempt ≤ n) :
    ((Unreliable._setState u ns p)._state = ns
      ∧ (Unreliable._setState u ns p).log
          = u.log ++ [UEffect.notifyState ns u._state u._state p])
    ∧ ((Daemon._startEntry n s)._state = DaemonStatus.STARTING
      ∧ (Daemon._startEntry n s).delivered = s.delivered ++ [s._state]
      ∧ (Daemon._startEntry n s).trace = s.trace ++ [DEvent.starting n])
    ∧ ((Daemon.resolveOkD i s)._state = DaemonStatus.RUNNING
      ∧ (Daemon.resolveOkD i s).delivered = s.delivered ++ [s._state])
    ∧ ((Daemon.resolveErrD o i s)._state = DaemonStatus.DEAD
      ∧ (Daemon.resolveErrD o i s).delivered = s.delivered ++ [s._state])
    ∧ ((Daemon._scheduleRetry o n s)._state = DaemonStatus.RETRY_SCHEDULED
      ∧ (Daemon._scheduleRetry o n s).delivered = s.delivered ++ [s._state]) := by
  refine ⟨⟨rfl, rfl⟩, ?_, ?_, ?_, ?_⟩
  · cases hrt : s._retryTimer with
    | none =>
      refine ⟨?_, ?_, ?_⟩ <;>
        simp [Daemon._startEntry, hnd, Daemon.clearRetryTimer, hrt, Daemon._cleanUp,
          Daemon.notifyD, Daemon.clearTimeoutD]
    | some id =>
      refine ⟨?_, ?_, ?_⟩ <;>
        simp [Daemon._startEntry, hnd, Daemon.clearRetryTimer, hrt, Daemon._cleanUp,
          Daemon.notifyD, Daemon.clearTimeoutD]
  · constructor <;> simp [Daemon.resolveOkD, hif, Daemon.notifyD]
  · constructor <;> simp [Daemon.resolveErrD, hif, hge, Daemon.notifyD]
  · cases hrt : s._retryTimer with
    | none =>
      constructor <;>
        simp [Daemon._scheduleRetry, hrt, Daemon.notifyD, Daemon.armRetryTimer,
          Daemon.clearTimeoutD]
    | some id =>
      constructor <;>
        simp [Daemon._scheduleRetry, hrt, Daemon.notifyD, Daemon.armRetryTimer,
          Daemon.clearTimeoutD]

/-- A daemon in the middle of its final attempt, used as the C3
witness: status `starting`, attempt 3 of 3 in flight, one broadcast
already delivered. -/
def c3WitnessState : DaemonState :=
  { _state := DaemonStatus.STARTING, _retryTimer := none, liveTimers := [],
    nextTimerId := 2, inFlight := [3], stoppedSubs := 0,
    trace := [DEvent.starting 3], aborts := [],
    delivered := [DaemonStatus.RETRY_SCHEDULED] }

/-- Witness for the C3 amended theorem: the Unreliable transition
yields the new state, and the Daemon broadcasts at status `starting`
deliver the pre-transition status while the field moves on. -/
theorem transition_broadcast_then_assign_witness :
    (c3WitnessState._state ≠ DaemonStatus.DEAD
     ∧ c3WitnessState.inFlight[0]? = some 3
     ∧ (3 : Nat) ≤ 3)
    ∧ (Unreliable._setState initUnState "starting" UPayload.plain)._state = "starting"
    ∧ (Daemon._startEntry 3 c3WitnessState).delivered
        = [DaemonStatus.RETRY_SCHEDULED, DaemonStatus.STARTING]
    ∧ (Daemon.resolveErrD ⟨3, 5⟩ 0 c3WitnessState)._state = DaemonStatus.DEAD := by
  have happ := transition_broadcast_then_assign initUnState "starting" UPayload.plain
    ⟨3, 5⟩ 0 3 c3WitnessState (by decide) rfl (by decide)
  refine ⟨⟨by decide, rfl, by decide⟩, happ.1.1, ?_, happ.2.2.2.1.1⟩
  rw [happ.2.1.2.1]
  rfl

/-- C4: when the `i`-th pending attempt `n` fails with `n < maxAttempt`
and the daemon is not dead, the single synchronous continuation
broadcasts the retryable `start-failed` and, in the same atomic step,
the `retry-scheduled` for attempt `n + 1` and sets the status to
`retry-scheduled` — so an observer reacting to `start-failed` already
finds the new status. -/
theorem daemon_retry_scheduled_same_step
    (o : DaemonOptions) (s : DaemonState) (i n : Nat)
    (hif : s.inFlight[i]? = some n) (hlt : n < o.maxAttempt)
    (hnd : s._state ≠ DaemonStatus.DEAD) :
    (Daemon.resolveErrD o i s).trace
      = s.trace ++ [DEvent.startFailed n (o.retryDelay : Int),
                    DEvent.retryScheduled (n + 1) o.retryDelay]
    ∧ (Daemon.resolveErrD o i s)._state = DaemonStatus.RETRY_SCHEDULED := by
  have hge : ¬ (o.maxAttempt ≤ n) := by omega
  cases hrt : s._retryTimer with
  | none =>
    constructor <;>
      simp [Daemon.resolveErrD, hif, hge, hnd, Daemon._scheduleRetry, hrt,
        Daemon.notifyD, Daemon.armRetryTimer, Daemon.clearTimeoutD]
  | some id =>
    constructor <;>
      simp [Daemon.resolveErrD, hif, hge, hnd, Daemon._scheduleRetry, hrt,
        Daemon.notifyD, Daemon.armRetryTimer, Daemon.clearTimeoutD]

/-- A daemon in the middle of its first attempt (used as C4 witness). -/
def c4WitnessState : DaemonState :=
  { _state := DaemonStatus.STARTING, _retryTimer := none, liveTimers := [],
    nextTimerId := 0, inFlight := [1], stoppedSubs := 0,
    trace := [DEvent.starting 1], aborts := [],
    delivered := [DaemonStatus.INIT] }

/-- Witness for the C4 theorem at attempt 1 of 3 with delay 2000. -/
theorem daemon_retry_scheduled_same_step_witness :
    (c4WitnessState.inFlight[0]? = some 1 ∧ 1 < 3
      ∧ c4WitnessState._state ≠ DaemonStatus.DEAD)
    ∧ (Daemon.resolveErrD ⟨3, 2000⟩ 0 c4WitnessState).trace
      = [DEvent.starting 1, DEvent.startFailed 1 2000, DEvent.retryScheduled 2 2000]
    ∧ (Daemon.resolveErrD ⟨3, 2000⟩ 0 c4WitnessState)._state
      = DaemonStatus.RETRY_SCHEDULED := by
  have happ := daemon_retry_scheduled_same_step ⟨3, 2000⟩ c4WitnessState 0 1 rfl
    (by decide) (by decide)
  exact ⟨⟨rfl, by decide, by decide⟩, by rw [happ.1]; rfl, happ.2⟩

/-- C5: whenever the resource emits its stopped transition while
exactly one daemon `once`-subscription is registered and the daemon is
not dead, the daemon runs `_cleanUp` (dropping the subscription) and
schedules the next retry at attempt number 1 — whatever the prior
trace, timers or attempt history were. -/
theorem daemon_attempt_reset_on_post_running_death
    (o : DaemonOptions) (s : DaemonState)
    (hsub : s.stoppedSubs = 1) (hnd : s._state ≠ DaemonStatus.DEAD) :
    (Daemon.resourceStoppedD o s).trace
      = s.trace ++ [DEvent.retryScheduled 1 o.retryDelay]
    ∧ (Daemon.resourceStoppedD o s)._state = DaemonStatus.RETRY_SCHEDULED
    ∧ (Daemon.resourceStoppedD o s).stoppedSubs = 0 := by
  cases hrt : s._retryTimer with
  | none =>
    refine ⟨?_, ?_, ?_⟩ <;>
      simp [Daemon.resourceStoppedD, hsub, Daemon.onStoppedIter,
        Daemon.onStoppedCallback, Daemon._cleanUp, Daemon.clearRetryTimer, hrt, hnd,
        Daemon._scheduleRetry, Daemon.notifyD, Daemon.armRetryTimer,
        Daemon.clearTimeoutD]
  | some id =>
    refine ⟨?_, ?_, ?_⟩ <;>
      simp [Daemon.resourceStoppedD, hsub, Daemon.onStoppedIter,
        Daemon.onStoppedCallback, Daemon._cleanUp, Daemon.clearRetryTimer, hrt, hnd,
        Daemon._scheduleRetry, Daemon.notifyD, Daemon.armRetryTimer,
        Daemon.clearTimeoutD]

/-- A daemon whose resource is running after two earlier failed
attempts (used as C5 witness): the prior trace records failures of
attempts 1 and 2, yet the scheduled retry is attempt 1. -/
def c5WitnessState : DaemonState :=
  { _state := DaemonStatus.RUNNING, _retryTimer := none, liveTimers := [],
    nextTimerId := 2, inFlight := [], stoppedSubs := 1,
    trace := [DEvent.starting 1, DEvent.startFailed 1 2000,
              DEvent.retryScheduled 2 2000, DEvent.starting 2,
              DEvent.startFailed 2 2000, DEvent.retryScheduled 3 2000,
              DEvent.starting 3, DEvent.running], aborts := [],
    delivered := [DaemonStatus.INIT, DaemonStatus.STARTING, DaemonStatus.STARTING,
                  DaemonStatus.RETRY_SCHEDULED, DaemonStatus.STARTING,
                  DaemonStatus.STARTING, DaemonStatus.RETRY_SCHEDULED,
                  DaemonStatus.STARTING] }

/-- Witness for the C5 theorem: after two failed attempts and a
successful third, the post-running death schedules attempt 1. -/
theorem daemon_attempt_reset_witness :
    (c5WitnessState.stoppedSubs = 1 ∧ c5WitnessState._state ≠ DaemonStatus.DEAD)
    ∧ (Daemon.resourceStoppedD ⟨3, 2000⟩ c5WitnessState).trace
      = c5WitnessState.trace ++ [DEvent.retryScheduled 1 2000]
    ∧ (Daemon.resourceStoppedD ⟨3, 2000⟩ c5WitnessState)._state
      = DaemonStatus.RETRY_SCHEDULED := by
  have happ := daemon_attempt_reset_on_post_running_death ⟨3, 2000⟩ c5WitnessState rfl
    (by decide)
  exact ⟨⟨rfl, by decide⟩, happ.1, happ.2.1⟩

/-- Timer discipline: every live timer is the one whose handle the
`_retryTimer` field stores, and it is the only live one. -/
def Daemon.TimerInv (s : DaemonState) : Prop :=
  ∀ t ∈ s.liveTimers, s._retryTimer = some t.1 ∧ s.liveTimers = [t]

theorem Daemon.timerInv_of_empty {s : DaemonState} (h : s.liveTimers = []) :
    Daemon.TimerInv s := by
  intro t ht
  rw [h] at ht
  cases ht

theorem Daemon.timerInv_le_one {s : DaemonState} (h : Daemon.TimerInv s) :
    s.liveTimers.length ≤ 1 := by
  cases hl : s.liveTimers with
  | nil => simp
  | cons t rest =>
    have h2 := (h t (by rw [hl]; exact List.mem_cons_self t rest)).2
    rw [hl] at h2
    simp only [List.cons.injEq] at h2
    simp [hl, h2.2]

theorem Daemon.timerInv_none_empty {s : DaemonState} (h : Daemon.TimerInv s)
    (hrt : s._retryTimer = none) : s.liveTimers = [] := by
  cases hl : s.liveTimers with
  | nil => rfl
  | cons t rest =>
    have h2 := (h t (by rw [hl]; exact List.mem_cons_self t rest)).1
    rw [hrt] at h2
    cases h2

theorem Daemon.timerInv_clear_some {s : DaemonState} (h : Daemon.TimerInv s)
    {id : Nat} (hrt : s._retryTimer = some id) :
    (Daemon.clearTimeoutD id s).liveTimers = [] := by
  simp only [Daemon.clearTimeoutD]
  cases hl : s.liveTimers with
  | nil => simp
  | cons t rest =>
    have h2 := h t (by rw [hl]; exact List.mem_cons_self t rest)
    have hid : id = t.1 := by
      have h3 := h2.1
      rw [hrt] at h3
      exact Option.some.inj h3
    have hrest : rest = [] := by
      have h4 := h2.2
      rw [hl] at h4
      simpa using h4
    subst hrest
    rw [hid]
    simp

/-- The timer invariant only depends on the two timer fields. -/
theorem Daemon.timerInv_congr {s s' : DaemonState}
    (hl : s'.liveTimers = s.liveTimers) (hr : s'._retryTimer = s._retryTimer)
    (h : Daemon.TimerInv s) : Daemon.TimerInv s' := by
  intro t ht
  rw [hl] at ht
  obtain ⟨a, b⟩ := h t ht
  exact ⟨hr.trans a, hl.trans b⟩

theorem Daemon.clearRetryTimer_empty {s : DaemonState} (h : Daemon.TimerInv s) :
    (Daemon.clearRetryTimer s).liveTimers = [] := by
  unfold Daemon.clearRetryTimer
  cases hrt : s._retryTimer with
  | none => exact Daemon.timerInv_none_empty h hrt
  | some id => simpa using Daemon.timerInv_clear_some h hrt

theorem Daemon.clearRetryTimer_none {s : DaemonState} (hrt : s._retryTimer = none) :
    Daemon.clearRetryTimer s = s := by
  unfold Daemon.clearRetryTimer
  rw [hrt]

theorem Daemon.clearRetryTimer_field (s : DaemonState) :
    (Daemon.clearRetryTimer s)._retryTimer = none := by
  unfold Daemon.clearRetryTimer
  cases hrt : s._retryTimer with
  | none => exact hrt
  | some id => rfl

theorem Daemon.cleanUp_empty {s : DaemonState} (h : Daemon.TimerInv s) :
    (Daemon._cleanUp s).liveTimers = [] ∧ (Daemon._cleanUp s)._retryTimer = none := by
  unfold Daemon._cleanUp
  exact ⟨Daemon.clearRetryTimer_empty h, Daemon.clearRetryTimer_field _⟩

theorem Daemon.timerInv_armRetryTimer {s : DaemonState} (hl : s.liveTimers = [])
    (n : Nat) : Daemon.TimerInv (Daemon.armRetryTimer n s) := by
  intro t ht
  simp [Daemon.armRetryTimer, hl] at ht ⊢
  rw [ht]
  exact ⟨rfl, rfl⟩

theorem Daemon.timerInv_scheduleRetry {s : DaemonState} (h : Daemon.TimerInv s)
    (o : DaemonOptions) (n : Nat) :
    Daemon.TimerInv (Daemon._scheduleRetry o n s) := by
  unfold Daemon._scheduleRetry
  cases hrt : s._retryTimer with
  | none =>
    have hl : s.liveTimers = [] := Daemon.timerInv_none_empty h hrt
    exact Daemon.timerInv_armRetryTimer (by simpa [Daemon.notifyD] using hl) n
  | some id =>
    have hl : (Daemon.clearTimeoutD id s).liveTimers = [] :=
      Daemon.timerInv_clear_some h hrt
    exact Daemon.timerInv_armRetryTimer (by simpa [Daemon.notifyD] using hl) n

theorem Daemon.timerInv_startEntry {s : DaemonState} (h : Daemon.TimerInv s) (n : Nat) :
    Daemon.TimerInv (Daemon._startEntry n s) := by
  unfold Daemon._startEntry
  by_cases hd : s._state = DaemonStatus.DEAD
  · simpa [hd] using h
  · simp only [hd, if_false]
    apply Daemon.timerInv_of_empty
    have h1 : (Daemon.clearRetryTimer s).liveTimers = [] :=
      Daemon.clearRetryTimer_empty h
    have h2 : (Daemon.clearRetryTimer s)._retryTimer = none :=
      Daemon.clearRetryTimer_field s
    have h3 : Daemon._cleanUp (Daemon.clearRetryTimer s)
        = { Daemon.clearRetryTimer s with stoppedSubs := 0 } := by
      unfold Daemon._cleanUp
      exact Daemon.clearRetryTimer_none (by simpa using h2)
    simp [Daemon.notifyD, h3, h1]

theorem Daemon.timerInv_cleanUp {s : DaemonState} (h : Daemon.TimerInv s) :
    Daemon.TimerInv (Daemon._cleanUp s) :=
  Daemon.timerInv_of_empty (Daemon.cleanUp_empty h).1

theorem Daemon.timerInv_onStoppedCallback {s : DaemonState} (h : Daemon.TimerInv s)
    (o : DaemonOptions) : Daemon.TimerInv (Daemon.onStoppedCallback o s) := by
  unfold Daemon.onStoppedCallback
  by_cases hd : (Daemon._cleanUp s)._state ≠ DaemonStatus.DEAD
  · simpa [hd] using Daemon.timerInv_scheduleRetry (Daemon.timerInv_cleanUp h) o 1
  · simpa [hd] using Daemon.timerInv_cleanUp h

theorem Daemon.timerInv_onStoppedIter {s : DaemonState} (h : Daemon.TimerInv s)
    (o : DaemonOptions) (k : Nat) : Daemon.TimerInv (Daemon.onStoppedIter o k s) := by
  induction k generalizing s with
  | zero => exact h
  | succ k ih => exact ih (Daemon.timerInv_onStoppedCallback h o)

theorem Daemon.timerInv_applyAct (o : DaemonOptions) (a : DAct) {s : DaemonState}
    (h : Daemon.TimerInv s) : Daemon.TimerInv (Daemon.applyAct o a s) := by
  cases a with
  | extStart =>
    simp only [Daemon.applyAct, Daemon.startD]
    exact Daemon.timerInv_startEntry
      (s := { s with _state := DaemonStatus.INIT })
      (Daemon.timerInv_congr rfl rfl h) 1
  | resolveOk i =>
    simp only [Daemon.applyAct, Daemon.resolveOkD]
    split
    · exact h
    · exact Daemon.timerInv_congr rfl rfl h
  | resolveErr i =>
    simp only [Daemon.applyAct, Daemon.resolveErrD]
    split
    · exact h
    · rename_i n heq
      split
      · exact Daemon.timerInv_congr rfl rfl h
      · split
        · exact Daemon.timerInv_scheduleRetry
            (s := Daemon.notifyD (DEvent.startFailed n (o.retryDelay : Int))
              { s with inFlight := s.inFlight.eraseIdx i })
            (Daemon.timerInv_congr rfl rfl h) o (n + 1)
        · exact Daemon.timerInv_congr rfl rfl h
  | timerFire =>
    simp only [Daemon.applyAct, Daemon.timerFireD]
    split
    · exact h
    · rename_i id n tail heq
      have h2 := h (id, n) (by rw [heq]; exact List.mem_cons_self _ _)
      have h3 : (Daemon.clearTimeoutD id s).liveTimers = [] :=
        Daemon.timerInv_clear_some h h2.1
      have h3' : ({ Daemon.clearTimeoutD id s with _retryTimer := none } :
          DaemonState).liveTimers = [] := h3
      exact Daemon.timerInv_startEntry (Daemon.timerInv_of_empty h3') n
  | resourceStopped =>
    simp only [Daemon.applyAct, Daemon.resourceStoppedD]
    exact Daemon.timerInv_onStoppedIter h o s.stoppedSubs
  | extStop =>
    simp only [Daemon.applyAct, Daemon.stopD]
    have h1 : Daemon.TimerInv ({ s with _state := DaemonStatus.DEAD } : DaemonState) :=
      Daemon.timerInv_congr rfl rfl h
    have h2 := Daemon.cleanUp_empty h1
    rw [Daemon.clearRetryTimer_none h2.2]
    exact Daemon.timerInv_of_empty h2.1

theorem Daemon.timerInv_runActs (o : DaemonOptions) (acts : List DAct) {s : DaemonState}
    (h : Daemon.TimerInv s) : Daemon.TimerInv (Daemon.runActs o acts s) := by
  induction acts generalizing s with
  | nil => exact h
  | cons a l ih => exact ih (Daemon.timerInv_applyAct o a h)

/-- C6: along every interleaving of external `start()`/`stop()` calls,
settlements of pending `it.start()` attempts, timer firings and
resource deaths, at most one retry timer is live per Daemon instance:
`_start` clears a pending timer before a fresh attempt, `_scheduleRetry`
cancels a dangling timer before arming a new one, and `_cleanUp` and
`stop()` clear any pending timer. -/
theorem daemon_at_most_one_retry_timer (o : DaemonOptions) (acts : List DAct) :
    (Daemon.runActs o acts initDaemon).liveTimers.length ≤ 1 :=
  Daemon.timerInv_le_one
    (Daemon.timerInv_runActs o acts (Daemon.timerInv_of_empty rfl))

/-- A dead daemon with no pending attempt, no subscription and no
timer: the quiescent terminal configuration. -/
def Daemon.DeadQuiescent (s : DaemonState) : Prop :=
  s._state = DaemonStatus.DEAD ∧ s.inFlight = [] ∧ s.stoppedSubs = 0
    ∧ s.liveTimers = [] ∧ s._retryTimer = none

theorem Daemon.deadQuiescent_applyAct (o : DaemonOptions) {a : DAct}
    (ha : a ≠ DAct.extStart) {s : DaemonState} (h : Daemon.DeadQuiescent s) :
    Daemon.DeadQuiescent (Daemon.applyAct o a s) := by
  obtain ⟨h1, h2, h3, h4, h5⟩ := h
  cases a with
  | extStart => exact absurd rfl ha
  | resolveOk i =>
    simp only [Daemon.applyAct, Daemon.resolveOkD, h2]
    exact ⟨h1, h2, h3, h4, h5⟩
  | resolveErr i =>
    simp only [Daemon.applyAct, Daemon.resolveErrD, h2]
    exact ⟨h1, h2, h3, h4, h5⟩
  | timerFire =>
    simp only [Daemon.applyAct, Daemon.timerFireD, h4]
    exact ⟨h1, h2, h3, h4, h5⟩
  | resourceStopped =>
    simp only [Daemon.applyAct, Daemon.resourceStoppedD, h3, Daemon.onStoppedIter]
    exact ⟨h1, h2, h3, h4, h5⟩
  | extStop =>
    simp only [Daemon.applyAct, Daemon.stopD, Daemon._cleanUp,
      Daemon.clearRetryTimer, h5]
    exact ⟨rfl, h2, rfl, h4, rfl⟩

theorem Daemon.deadQuiescent_runActs (o : DaemonOptions) {acts : List DAct}
    (hacts : ∀ a ∈ acts, a ≠ DAct.extStart) {s : DaemonState}
    (h : Daemon.DeadQuiescent s) :
    Daemon.DeadQuiescent (Daemon.runActs o acts s) := by
  induction acts generalizing s with
  | nil => exact h
  | cons a l ih =>
    exact ih (fun b hb => hacts b (List.mem_cons_of_mem a hb))
      (Daemon.deadQuiescent_applyAct o (hacts a (List.mem_cons_self a l)) h)

/-- The broadcast trace of attempts `i, i+1, …` of an always-failing
episode when `k` attempts remain (attempt `i + k - 1` is the last):
each non-final attempt contributes `starting`, a retryable
`start-failed` carrying the retry delay, and the `retry-scheduled` for
the next attempt number; the final attempt contributes `starting` and
the terminal `start-failed` with `retryIn = -1`. -/
def failTail (d : Nat) : Nat → Nat → List DEvent
  | _, 0 => []
  | i, 1 => [DEvent.starting i, DEvent.startFailed i (-1)]
  | i, k + 2 =>
    DEvent.starting i :: DEvent.startFailed i (d : Int)
      :: DEvent.retryScheduled (i + 1) d :: failTail d (i + 1) (k + 1)

/-- The broadcast trace of `j` consecutive non-final failing attempts
starting at attempt `i`. -/
def failMid (d : Nat) : Nat → Nat → List DEvent
  | _, 0 => []
  | i, j + 1 =>
    DEvent.starting i :: DEvent.startFailed i (d : Int)
      :: DEvent.retryScheduled (i + 1) d :: failMid d (i + 1) j

/-- `k` rounds of retry-timer fire followed by a failed settlement. -/
def iterFailActs : Nat → List DAct
  | 0 => []
  | k + 1 => DAct.timerFire :: DAct.resolveErr 0 :: iterFailActs k

/-- The full always-failing episode for `maxAttempt = N`: the external
`start()`, the first failed settlement, then `N - 1` timer rounds. -/
def failActs (N : Nat) : List DAct :=
  DAct.extStart :: DAct.resolveErr 0 :: iterFailActs (N - 1)

/-- The delivered statuses (what an in-broadcast observer reads) of the
last `k` attempts of an always-failing episode: each round's `starting`
is delivered while still `retry-scheduled`, its `start-failed` while
`starting`, and — for non-final rounds — the following
`retry-scheduled` also while `starting` (the status is assigned only
after that broadcast). -/
def failDeliveredTail : Nat → List DaemonStatus
  | 0 => []
  | 1 => [DaemonStatus.RETRY_SCHEDULED, DaemonStatus.STARTING]
  | k + 2 =>
    DaemonStatus.RETRY_SCHEDULED :: DaemonStatus.STARTING :: DaemonStatus.STARTING
      :: failDeliveredTail (k + 1)

/-- Delivered statuses of `j` consecutive non-final failing rounds. -/
def failDeliveredMid : Nat → List DaemonStatus
  | 0 => []
  | j + 1 =>
    DaemonStatus.RETRY_SCHEDULED :: DaemonStatus.STARTING :: DaemonStatus.STARTING
      :: failDeliveredMid j

/-- Delivered statuses of the whole always-failing episode with `N`
attempts: the first `starting` is delivered while still `init`. -/
def failDelivered : Nat → List DaemonStatus
  | 0 => []
  | 1 => [DaemonStatus.INIT, DaemonStatus.STARTING]
  | k + 2 =>
    DaemonStatus.INIT :: DaemonStatus.STARTING :: DaemonStatus.STARTING
      :: failDeliveredTail (k + 1)

/-- The daemon state between failed attempts: the retry timer `tid` is
armed for attempt `i`, `tr` has been broadcast so far and `dv` is the
delivered-status log so far. -/
def midDaemonState (i tid : Nat) (tr : List DEvent) (dv : List DaemonStatus) :
    DaemonState :=
  { _state := DaemonStatus.RETRY_SCHEDULED, _retryTimer := some tid,
    liveTimers := [(tid, i)], nextTimerId := tid + 1, inFlight := [],
    stoppedSubs := 0, trace := tr, aborts := [], delivered := dv }

/-- The terminal state after an exhausted episode that gave up at
attempt `n`. -/
def deadDaemonState (tr : List DEvent) (dv : List DaemonStatus) (ntid n : Nat) :
    DaemonState :=
  { _state := DaemonStatus.DEAD, _retryTimer := none, liveTimers := [],
    nextTimerId := ntid, inFlight := [], stoppedSubs := 0, trace := tr,
    aborts := [⟨n, -1⟩], delivered := dv }

theorem Daemon.midStepNonFinal (N d i tid : Nat) (tr : List DEvent)
    (dv : List DaemonStatus) (hiN : i < N) :
    Daemon.runActs ⟨N, d⟩ [DAct.timerFire, DAct.resolveErr 0]
        (midDaemonState i tid tr dv)
      = midDaemonState (i + 1) (tid + 1)
          (tr ++ [DEvent.starting i, DEvent.startFailed i (d : Int),
                  DEvent.retryScheduled (i + 1) d])
          (dv ++ [DaemonStatus.RETRY_SCHEDULED, DaemonStatus.STARTING,
                  DaemonStatus.STARTING]) := by
  have hge : ¬ (N ≤ i) := by omega
  simp [Daemon.runActs, Daemon.applyAct, Daemon.timerFireD, midDaemonState,
    Daemon.clearTimeoutD, Daemon._startEntry, Daemon.clearRetryTimer, Daemon._cleanUp,
    Daemon.notifyD, Daemon.resolveErrD, hge, Daemon._scheduleRetry,
    Daemon.armRetryTimer]

theorem Daemon.midStepFinal (N d i tid : Nat) (tr : List DEvent)
    (dv : List DaemonStatus) (hiN : N ≤ i) :
    Daemon.runActs ⟨N, d⟩ [DAct.timerFire, DAct.resolveErr 0]
        (midDaemonState i tid tr dv)
      = deadDaemonState (tr ++ [DEvent.starting i, DEvent.startFailed i (-1)])
          (dv ++ [DaemonStatus.RETRY_SCHEDULED, DaemonStatus.STARTING])
          (tid + 1) i := by
  simp [Daemon.runActs, Daemon.applyAct, Daemon.timerFireD, midDaemonState,
    Daemon.clearTimeoutD, Daemon._startEntry, Daemon.clearRetryTimer, Daemon._cleanUp,
    Daemon.notifyD, Daemon.resolveErrD, hiN, deadDaemonState]

theorem Daemon.startPhase (N d : Nat) (hN2 : 2 ≤ N) :
    Daemon.runActs ⟨N, d⟩ [DAct.extStart, DAct.resolveErr 0] initDaemon
      = midDaemonState 2 0 [DEvent.starting 1, DEvent.startFailed 1 (d : Int),
          DEvent.retryScheduled 2 d]
          [DaemonStatus.INIT, DaemonStatus.STARTING, DaemonStatus.STARTING] := by
  have hge : ¬ (N ≤ 1) := by omega
  simp [Daemon.runActs, Daemon.applyAct, Daemon.startD, Daemon._startEntry, initDaemon,
    Daemon.clearRetryTimer, Daemon._cleanUp, Daemon.notifyD, Daemon.resolveErrD, hge,
    Daemon._scheduleRetry, Daemon.armRetryTimer, midDaemonState, Daemon.clearTimeoutD]

theorem Daemon.startPhaseOne (d : Nat) :
    Daemon.runActs ⟨1, d⟩ [DAct.extStart, DAct.resolveErr 0] initDaemon
      = deadDaemonState [DEvent.starting 1, DEvent.startFailed 1 (-1)]
          [DaemonStatus.INIT, DaemonStatus.STARTING] 0 1 := rfl

theorem Daemon.iterFailRun (N d : Nat) :
    ∀ k i tid tr dv, 1 ≤ k → i + k = N + 1 →
      Daemon.runActs ⟨N, d⟩ (iterFailActs k) (midDaemonState i tid tr dv)
        = deadDaemonState (tr ++ failTail d i k) (dv ++ failDeliveredTail k)
            (tid + k) N := by
  intro k
  induction k with
  | zero => intro i tid tr dv hk; omega
  | succ k ih =>
    intro i tid tr dv hk hik
    cases k with
    | zero =>
      have hle : N ≤ i := by omega
      have hi : i = N := by omega
      simpa [iterFailActs, failTail, failDeliveredTail, hi] using
        Daemon.midStepFinal N d i tid tr dv hle
    | succ k' =>
      have hiN : i < N := by omega
      have hsplit : iterFailActs (k' + 2)
          = [DAct.timerFire, DAct.resolveErr 0] ++ iterFailActs (k' + 1) := rfl
      rw [hsplit, Daemon.runActs_append, Daemon.midStepNonFinal N d i tid tr dv hiN,
        ih (i + 1) (tid + 1) _ _ (by omega) (by omega)]
      have h1 : tid + 1 + (k' + 1) = tid + (k' + 1 + 1) := by omega
      rw [h1]
      have htr : failTail d i (k' + 2)
          = DEvent.starting i :: DEvent.startFailed i (d : Int)
            :: DEvent.retryScheduled (i + 1) d :: failTail d (i + 1) (k' + 1) := rfl
      have hdv : failDeliveredTail (k' + 2)
          = DaemonStatus.RETRY_SCHEDULED :: DaemonStatus.STARTING
            :: DaemonStatus.STARTING :: failDeliveredTail (k' + 1) := rfl
      rw [htr, hdv]
      simp

theorem Daemon.iterFailRunMid (N d : Nat) :
    ∀ j i tid tr dv, i + j ≤ N →
      Daemon.runActs ⟨N, d⟩ (iterFailActs j) (midDaemonState i tid tr dv)
        = midDaemonState (i + j) (tid + j) (tr ++ failMid d i j)
            (dv ++ failDeliveredMid j) := by
  intro j
  induction j with
  | zero => intro i tid tr dv h; simp [iterFailActs, failMid, failDeliveredMid, Daemon.runActs]
  | succ j ih =>
    intro i tid tr dv hij
    have hiN : i < N := by omega
    have hsplit : iterFailActs (j + 1)
        = [DAct.timerFire, DAct.resolveErr 0] ++ iterFailActs j := rfl
    rw [hsplit, Daemon.runActs_append, Daemon.midStepNonFinal N d i tid tr dv hiN,
      ih (i + 1) (tid + 1) _ _ (by omega)]
    have h1 : i + 1 + j = i + (j + 1) := by omega
    have h2 : tid + 1 + j = tid + (j + 1) := by omega
    rw [h1, h2]
    have htr : failMid d i (j + 1)
        = DEvent.starting i :: DEvent.startFailed i (d : Int)
          :: DEvent.retryScheduled (i + 1) d :: failMid d (i + 1) j := rfl
    have hdv : failDeliveredMid (j + 1)
        = DaemonStatus.RETRY_SCHEDULED :: DaemonStatus.STARTING
          :: DaemonStatus.STARTING :: failDeliveredMid j := rfl
    rw [htr, hdv]
    simp

/-- Recognize `start-failed` broadcasts. -/
def isStartFailedEvent : DEvent → Bool
  | .startFailed _ _ => true
  | _ => false

theorem failTail_count (d : Nat) : ∀ k i,
    ((failTail d i k).filter isStartFailedEvent).length = k
  | 0, i => by simp [failTail]
  | 1, i => by simp [failTail, isStartFailedEvent]
  | (k + 2), i => by
    have ih := failTail_count d (k + 1) (i + 1)
    simp [failTail, isStartFailedEvent, ih]

/-- C1: for every `maxAttempt = N ≥ 1`, an always-failing resource
yields the exact broadcast sequence `failTail d 1 N` — attempts
`1 … N-1` each broadcast `starting`, a `start-failed` with
`retryIn = retryDelay` followed in the same step by `retry-scheduled`
and later a `starting` for the next attempt number; attempt `N`
broadcasts `start-failed` with `retryIn = -1` — for a total of exactly
`N` `start-failed` events; after every non-final failure the status is
`retry-scheduled`, and the final status is `dead` and stays `dead`
under every further step except an external `start()`.  The structure
equality also pins down the delivered-status log `failDelivered N`. -/
theorem daemon_bounded_retries (N d : Nat) (hN : 1 ≤ N) :
    Daemon.runActs ⟨N, d⟩ (failActs N) initDaemon
      = deadDaemonState (failTail d 1 N) (failDelivered N) (N - 1) N
    ∧ ((Daemon.runActs ⟨N, d⟩ (failActs N) initDaemon).trace.filter
        isStartFailedEvent).length = N
    ∧ (∀ j, 1 ≤ j → j + 1 ≤ N →
        (Daemon.runActs ⟨N, d⟩
          (DAct.extStart :: DAct.resolveErr 0 :: iterFailActs (j - 1))
          initDaemon)._state = DaemonStatus.RETRY_SCHEDULED)
    ∧ (∀ acts, (∀ a ∈ acts, a ≠ DAct.extStart) →
        (Daemon.runActs ⟨N, d⟩ acts
          (Daemon.runActs ⟨N, d⟩ (failActs N) initDaemon))._state
          = DaemonStatus.DEAD) := by
  have hmain : Daemon.runActs ⟨N, d⟩ (failActs N) initDaemon
      = deadDaemonState (failTail d 1 N) (failDelivered N) (N - 1) N := by
    rcases Nat.lt_or_ge N 2 with h2 | h2
    · have hN1 : N = 1 := by omega
      subst hN1
      simpa [failActs, iterFailActs, failTail, failDelivered] using
        Daemon.startPhaseOne d
    · obtain ⟨m, rfl⟩ : ∃ m, N = m + 2 := ⟨N - 2, by omega⟩
      have hsplit : failActs (m + 2)
          = [DAct.extStart, DAct.resolveErr 0] ++ iterFailActs (m + 1) := rfl
      rw [hsplit, Daemon.runActs_append, Daemon.startPhase (m + 2) d (by omega),
        Daemon.iterFailRun (m + 2) d (m + 1) 2 0 _ _ (by omega) (by omega)]
      have hnt : (0 : Nat) + (m + 1) = m + 2 - 1 := by omega
      have htr : failTail d 1 (m + 2)
          = DEvent.starting 1 :: DEvent.startFailed 1 (d : Int)
            :: DEvent.retryScheduled 2 d :: failTail d 2 (m + 1) := rfl
      have hdv : failDelivered (m + 2)
          = DaemonStatus.INIT :: DaemonStatus.STARTING :: DaemonStatus.STARTING
            :: failDeliveredTail (m + 1) := rfl
      rw [htr, hdv, hnt]
      simp
  refine ⟨hmain, ?_, ?_, ?_⟩
  · rw [hmain]
    exact failTail_count d N 1
  · intro j hj1 hjN
    have h2 : 2 ≤ N := by omega
    have hsplit : (DAct.extStart :: DAct.resolveErr 0 :: iterFailActs (j - 1))
        = [DAct.extStart, DAct.resolveErr 0] ++ iterFailActs (j - 1) := rfl
    rw [hsplit, Daemon.runActs_append, Daemon.startPhase N d h2,
      Daemon.iterFailRunMid N d (j - 1) 2 0 _ _ (by omega)]
    rfl
  · intro acts hacts
    rw [hmain]
    exact (Daemon.deadQuiescent_runActs ⟨N, d⟩ hacts
      (⟨rfl, rfl, rfl, rfl, rfl⟩ :
        Daemon.DeadQuiescent
          (deadDaemonState (failTail d 1 N) (failDelivered N) (N - 1) N))).1

/-- Witness for the C1 theorem at `maxAttempt = 3`, `retryDelay = 5`,
with the expected trace and delivered statuses spelled out
concretely. -/
theorem daemon_bounded_retries_witness :
    (1 ≤ 3)
    ∧ Daemon.runActs ⟨3, 5⟩ (failActs 3) initDaemon
      = deadDaemonState (failTail 5 1 3) (failDelivered 3) 2 3
    ∧ failTail 5 1 3
      = [DEvent.starting 1, DEvent.startFailed 1 5, DEvent.retryScheduled 2 5,
         DEvent.starting 2, DEvent.startFailed 2 5, DEvent.retryScheduled 3 5,
         DEvent.starting 3, DEvent.startFailed 3 (-1)]
    ∧ failDelivered 3
      = [DaemonStatus.INIT, DaemonStatus.STARTING, DaemonStatus.STARTING,
         DaemonStatus.RETRY_SCHEDULED, DaemonStatus.STARTING, DaemonStatus.STARTING,
         DaemonStatus.RETRY_SCHEDULED, DaemonStatus.STARTING] :=
  ⟨by decide, (daemon_bounded_retries 3 5 (by decide)).1, by decide, by decide⟩
